import Mathlib

/-
  Verification development for the kuzzle javascript sdk sources.

  The embedding follows src/unnamed/part_001 (kuzzleDataCollection.js) and
  src/src/core/security/Profile.ts. Values flowing through the sdk are JSON
  data, modelled by the JValue type below. Callback functions are represented
  by numeric identifiers; a method run records the list of dispatched query
  calls and the list of callback invocations it performs.

  Parts of the repository that are referenced from these files but are not
  present under src/ (the Kuzzle session core, KuzzleRoom, KuzzleDocument,
  KuzzleDataMapping) are modelled from the specification; every such
  definition carries a doc comment starting with the words: Modelled from
  the spec.
-/

/-- JSON values, the data manipulated by the sdk. The null constructor also
stands for the javascript undefined value: the two are distinguished by the
source code of this repository in no observable way. -/
inductive JValue where
  | null : JValue
  | bool (b : Bool) : JValue
  | num (n : Int) : JValue
  | str (s : String) : JValue
  | arr (elems : List JValue) : JValue
  | obj (fields : List (String × JValue)) : JValue
deriving Repr

/-- Javascript truthiness of a JSON value. -/
def truthy : JValue → Bool
  | .null => false
  | .bool b => b
  | .num n => n != 0
  | .str s => s != ""
  | .arr _ => true
  | .obj _ => true

/-- Association lists of object fields, also used for header sets. -/
abbrev Fields := List (String × JValue)

/-- Field lookup in an object field list (first match wins, as in a
javascript object literal read). -/
def getKey : Fields → String → Option JValue
  | [], _ => none
  | (k, v) :: rest, key => if k = key then some v else getKey rest key

/-- Field update: replace the value when the key exists, append otherwise. -/
def setKey : Fields → String → JValue → Fields
  | [], key, v => [(key, v)]
  | (k, w) :: rest, key, v =>
      if k = key then (key, v) :: rest else (k, w) :: setKey rest key v

/-- Property read on a JSON value; missing members read as null, matching the
javascript undefined result of a missing property access. -/
def jGet (v : JValue) (key : String) : JValue :=
  match v with
  | .obj fs => (getKey fs key).getD .null
  | _ => .null

/-- Property write on a JSON object value. -/
def jSet (v : JValue) (key : String) (x : JValue) : JValue :=
  match v with
  | .obj fs => .obj (setKey fs key x)
  | other => other

/-- Modelled from the spec: Kuzzle.prototype.addHeaders belongs to the session
core, which is not under src/. Per the spec (section 1) the wrappers build a
request object and attach the stored headers to it; a header field is attached
only when the request does not already carry a field of that name, so the
request content always takes precedence. -/
def addHeaders (data : JValue) (headers : Fields) : JValue :=
  match data with
  | .obj fs =>
      .obj (headers.foldl
        (fun acc kv => if (getKey acc kv.1).isSome then acc else acc ++ [kv]) fs)
  | other => other

/- ===================== Profile (src/src/core/security/Profile.ts) ====== -/

/-- The Profile class of src/src/core/security/Profile.ts. The backing session
reference is the field named with a leading underscore, defined through
Reflect.defineProperty in the source; sessions are identified by a numeric
reference. -/
structure Profile where
  hiddenKuzzle : Nat
  profileId : JValue
  rateLimit : JValue
  policies : JValue
deriving Repr

/-- The Profile constructor (Profile.ts lines 27 to 35): stores the session
reference, the given id, and reads rateLimit and policies out of the content
object with javascript truthiness defaults. -/
def Profile.construct (kuzzle : Nat) (theId : JValue) (content : JValue) : Profile :=
  { hiddenKuzzle := kuzzle
    profileId := theId
    rateLimit :=
      if truthy content && truthy (jGet content "rateLimit")
      then jGet content "rateLimit" else .num 0
    policies :=
      if truthy content && truthy (jGet content "policies")
      then jGet content "policies" else .arr [] }

/-- The protected kuzzle accessor (Profile.ts lines 37 to 39). -/
def Profile.kuzzleGetter (p : Profile) : Nat :=
  p.hiddenKuzzle

/-- Profile.serialize (Profile.ts lines 57 to 63): an object holding exactly
the id, rateLimit and policies fields. -/
def Profile.serialize (p : Profile) : JValue :=
  .obj [("_id", p.profileId), ("rateLimit", p.rateLimit), ("policies", p.policies)]

/-- The list of field names of a serialized object. -/
def objKeys : JValue → List String
  | .obj fs => fs.map Prod.fst
  | _ => []

/- ============ KuzzleDataCollection (src/unnamed/part_001) ============== -/

/-- The session object seen from the wrapper: its current header set and
whether a bluebird handle is attached (part_001 lines 33 to 40). -/
structure KuzzleState where
  headers : Fields
  bluebird : Bool
deriving Repr

/-- A KuzzleDataCollection instance (constructor, part_001 lines 21 to 52):
the read-only collection name, the read-only reference to the session object
(sessions are identified by a numeric reference), and the writable header
set. The constructor takes a deep copy of the session headers through
JSON.parse of JSON.stringify; on JSON data that round trip is the identity,
so in a value semantics the copy is the value itself. -/
structure Collection where
  collection : String
  kuzzle : Nat
  headers : Fields
deriving Repr

/-- The KuzzleDataCollection constructor state initialization
(part_001 lines 22 to 38). -/
def mkCollection (kuzzleRef : Nat) (k : KuzzleState) (name : String) : Collection :=
  { collection := name, kuzzle := kuzzleRef, headers := k.headers }

/-- A javascript argument slot that may hold nothing (undefined or null), an
object, or a function, as needed by the options-or-callback shuffling idiom
of part_001. -/
inductive Arg where
  | nil : Arg
  | obj (v : JValue) : Arg
  | fn (cb : Nat) : Arg
deriving Repr

/-- Injection of an optional options object into an argument slot. -/
def optArg : Option JValue → Arg
  | none => .nil
  | some v => .obj v

/-- The argument shuffling idiom repeated through part_001: when no callback
was passed and the options slot holds a function, that function becomes the
callback and options becomes null. -/
def shuffleArgs : Arg → Option Nat → Arg × Option Nat
  | .fn f, none => (.nil, some f)
  | o, c => (o, c)

/-- One call to the generic query dispatcher of the session
(this.kuzzle.query in part_001): target collection, controller, action, the
request data, the options slot passed through, and whether a callback was
attached to the call. -/
structure QueryCall where
  collection : String
  controller : String
  action : String
  data : JValue
  options : Arg
  hasCallback : Bool
deriving Repr

/-- A KuzzleDocument instance: the collection wrapper it belongs to, its id,
its content and an optional version. -/
structure KDocument where
  coll : Collection
  docId : JValue
  content : JValue
  version : Option JValue
deriving Repr

/-- Modelled from the spec: the KuzzleDocument constructor (kuzzleDocument.js
is not under src/) stores the collection reference, the id and the content;
a missing content argument is stored as the undefined value. -/
def newKDocument (coll : Collection) (theId : JValue) (content : JValue) : KDocument :=
  { coll := coll, docId := theId, content := content, version := none }

/-- KuzzleDataCollection.prototype.documentFactory (part_001 lines 550 to
558): builds the document from the _source member when one is present, and
copies a _version member into the document when present. -/
def Collection.documentFactory (self : Collection) (theId : JValue) (content : JValue) : KDocument :=
  let document :=
    if truthy (jGet content "_source")
    then newKDocument self theId (jGet content "_source")
    else newKDocument self theId content
  if truthy (jGet content "_version")
  then { document with version := some (jGet content "_version") }
  else document

/-- Modelled from the spec: KuzzleDocument.prototype.toJSON (kuzzleDocument.js
is not under src/). Per the spec (section 1) document wrappers build a request
object; the serialized form carries the document id when one is set and the
content as the request body. -/
def KDocument.toJSON (d : KDocument) : JValue :=
  if truthy d.docId
  then .obj [("_id", d.docId), ("body", d.content)]
  else .obj [("body", d.content)]

/-- A KuzzleDataMapping instance: the collection wrapper it was created from
and the mapping content. -/
structure KMapping where
  coll : Collection
  mapping : JValue
deriving Repr

/-- A KuzzleRoom instance as seen from the wrapper layer: the collection it
was created on, the subscription options, and once renew ran, the registered
filters and notification callback. -/
structure KRoom where
  coll : Collection
  options : Arg
  filters : Option JValue
  cbId : Option Nat
deriving Repr

/-- Modelled from the spec: KuzzleRoom.prototype.renew (kuzzleRoom.js is not
under src/). Per the spec (sections 4.4 and 6) renew registers the filters
and the notification handler on the room and returns the room handle itself,
through which the subscription can later be cancelled. -/
def KRoom.renew (room : KRoom) (filters : JValue) (cb : Nat) : KRoom :=
  { room with filters := some filters, cbId := some cb }

/-- Modelled from the spec: KuzzleRoom.prototype.unsubscribe (spec section
4.4): removes the registered callback, cancelling the subscription held by
the handle. -/
def KRoom.unsubscribe (room : KRoom) : KRoom :=
  { room with cbId := none }

/-- A value a method can deliver to a response callback. -/
inductive CbValue where
  | raw (v : JValue) : CbValue
  | searchPage (total : JValue) (documents : List KDocument) : CbValue
  | document (d : KDocument) : CbValue
  | mapobj (m : KMapping) : CbValue
deriving Repr

/-- One invocation of a response callback: the callback identifier, the error
argument (none stands for the null first argument) and the result argument. -/
structure CbRec where
  cb : Nat
  error : Option JValue
  result : Option CbValue
deriving Repr

/-- The observable outcome of one method run: the query calls dispatched to
the session, the callback invocations performed, the final state of the
receiver, and the returned value. -/
structure MOut (ρ : Type) where
  queries : List QueryCall
  cbCalls : List CbRec
  post : Collection
  ret : ρ
deriving Repr

/-- Modelled from the spec: Kuzzle.prototype.callbackRequired belongs to the
session core, which is not under src/; it fails the calling method when no
callback was provided, with an error naming the caller. -/
def callbackRequired (name : String) : Option Nat → Except String Nat
  | some f => .ok f
  | none => .error (name ++ ": a callback is required")

/-- Modelled from the spec: the generic query dispatcher (RequestTracker,
spec section 4.2) resolves each request exactly once; a callback attached
directly to the query call receives either the error or null and the raw
result, and a call without callback is fire-and-forget. -/
def passThrough (cb : Option Nat) (backend : Except JValue JValue) : List CbRec :=
  match cb with
  | none => []
  | some f =>
      match backend with
      | .error e => [{ cb := f, error := some e, result := none }]
      | .ok r => [{ cb := f, error := none, result := some (.raw r) }]

/-- KuzzleDataCollection.prototype.advancedSearch (part_001 lines 66 to 95).
The backend response for a search, once well formed, carries result.hits.total
and the result.hits.hits array, destructured here as a record. -/
structure SearchRaw where
  total : JValue
  hits : List JValue
deriving Repr

def Collection.advancedSearch (self : Collection) (filters : JValue)
    (options : Arg) (cb : Option Nat) (backend : Except JValue SearchRaw) :
    Except String (MOut Collection) := do
  let (options, cb) := shuffleArgs options cb
  let f ← callbackRequired "KuzzleDataCollection.advancedSearch" cb
  let query := addHeaders (.obj [("body", filters)]) self.headers
  let cbRec : CbRec :=
    match backend with
    | .error e => { cb := f, error := some e, result := none }
    | .ok r =>
        { cb := f, error := none
          result := some (.searchPage r.total
            (r.hits.map (fun doc => self.documentFactory (jGet doc "_id") doc))) }
  return { queries := [⟨self.collection, "read", "search", query, options, true⟩]
           cbCalls := [cbRec], post := self, ret := self }

/-- KuzzleDataCollection.prototype.count (part_001 lines 109 to 130). -/
def Collection.count (self : Collection) (filters : JValue) (options : Arg)
    (cb : Option Nat) (backend : Except JValue JValue) :
    Except String (MOut Collection) := do
  let (options, cb) := shuffleArgs options cb
  let f ← callbackRequired "KuzzleDataCollection.count" cb
  let query := addHeaders (.obj [("body", filters)]) self.headers
  let cbRec : CbRec :=
    match backend with
    | .error e => { cb := f, error := some e, result := none }
    | .ok r => { cb := f, error := none, result := some (.raw (jGet r "count")) }
  return { queries := [⟨self.collection, "read", "count", query, options, true⟩]
           cbCalls := [cbRec], post := self, ret := self }

/-- KuzzleDataCollection.prototype.create (part_001 lines 141 to 153): the
optional callback is handed to the dispatcher unchanged. -/
def Collection.create (self : Collection) (options : Arg) (cb : Option Nat)
    (backend : Except JValue JValue) : MOut Collection :=
  let (options, cb) := shuffleArgs options cb
  let data := addHeaders (.obj []) self.headers
  { queries := [⟨self.collection, "write", "createCollection", data, options, cb.isSome⟩]
    cbCalls := passThrough cb backend, post := self, ret := self }

/-- KuzzleDataCollection.prototype.createDocument (part_001 lines 170 to
207): the document argument is either a KuzzleDocument instance or a plain
content object. -/
def Collection.createDocument (self : Collection)
    (document : Sum KDocument JValue) (options : Arg) (cb : Option Nat)
    (backend : Except JValue JValue) : MOut Collection :=
  let (options, cb) := shuffleArgs options cb
  let data :=
    match document with
    | .inl d => d.toJSON
    | .inr v => JValue.obj [("body", v)]
  let action :=
    match options with
    | .obj v => if truthy (jGet v "updateIfExist") then "createOrUpdate" else "create"
    | .fn _ => "create"
    | .nil => "create"
  let data := jSet data "persist" (.bool true)
  let data := addHeaders data self.headers
  let cbCalls :=
    match cb with
    | none => []
    | some f =>
        match backend with
        | .error e => [{ cb := f, error := some e, result := none }]
        | .ok r =>
            [{ cb := f, error := none
               result := some (.document (self.documentFactory (jGet r "_id") r)) }]
  { queries := [⟨self.collection, "write", action, data, options, cb.isSome⟩]
    cbCalls := cbCalls, post := self, ret := self }

/-- KuzzleDataCollection.prototype.delete (part_001 lines 216 to 228). -/
def Collection.delete (self : Collection) (options : Arg) (cb : Option Nat)
    (backend : Except JValue JValue) : MOut Collection :=
  let (options, cb) := shuffleArgs options cb
  let data := addHeaders (.obj []) self.headers
  { queries := [⟨self.collection, "admin", "deleteCollection", data, options, cb.isSome⟩]
    cbCalls := passThrough cb backend, post := self, ret := self }

/-- KuzzleDataCollection.prototype.deleteDocument (part_001 lines 246 to
283): a string argument deletes one document by id, an object argument
deletes by query. -/
def Collection.deleteDocument (self : Collection) (arg : Sum String JValue)
    (options : Arg) (cb : Option Nat) (backend : Except JValue JValue) :
    MOut Collection :=
  let dataAction :=
    match arg with
    | .inl s => (JValue.obj [("_id", .str s)], "delete")
    | .inr v => (JValue.obj [("body", v)], "deleteByQuery")
  let data := dataAction.1
  let action := dataAction.2
  let (options, cb) := shuffleArgs options cb
  let data := addHeaders data self.headers
  let cbCalls :=
    match cb with
    | none => []
    | some f =>
        match backend with
        | .error e => [{ cb := f, error := some e, result := none }]
        | .ok r =>
            if action = "delete"
            then [{ cb := f, error := none, result := some (.raw (.arr [jGet data "_id"])) }]
            else [{ cb := f, error := none, result := some (.raw (jGet r "ids")) }]
  { queries := [⟨self.collection, "write", action, data, options, cb.isSome⟩]
    cbCalls := cbCalls, post := self, ret := self }

/-- KuzzleDataCollection.prototype.fetchDocument (part_001 lines 293 to 315). -/
def Collection.fetchDocument (self : Collection) (documentId : JValue)
    (options : Arg) (cb : Option Nat) (backend : Except JValue JValue) :
    Except String (MOut Collection) := do
  let data := JValue.obj [("_id", documentId)]
  let (options, cb) := shuffleArgs options cb
  let f ← callbackRequired "KuzzleDataCollection.fetch" cb
  let data := addHeaders data self.headers
  let cbRec : CbRec :=
    match backend with
    | .error e => { cb := f, error := some e, result := none }
    | .ok r =>
        { cb := f, error := none
          result := some (.document (self.documentFactory (jGet r "_id") r)) }
  return { queries := [⟨self.collection, "read", "get", data, options, true⟩]
           cbCalls := [cbRec], post := self, ret := self }

/-- KuzzleDataCollection.prototype.fetchAllDocuments (part_001 lines 324 to
335): delegates to advancedSearch with an empty filter object and returns
the receiver. -/
def Collection.fetchAllDocuments (self : Collection) (options : Arg)
    (cb : Option Nat) (backend : Except JValue SearchRaw) :
    Except String (MOut Collection) := do
  let (options, cb) := shuffleArgs options cb
  let _ ← callbackRequired "KuzzleDataCollection.fetchAll" cb
  let inner ← self.advancedSearch (.obj []) options cb backend
  return { queries := inner.queries, cbCalls := inner.cbCalls, post := self, ret := self }

/-- Modelled from the spec: KuzzleDataMapping.prototype.refresh
(kuzzleDataMapping.js is not under src/). Per the spec (section 1) the
mapping wrapper builds a request, attaches the collection headers and
forwards it to the dispatcher; the callback receives the error or the
refreshed mapping wrapper. The collection wrapper is not modified. -/
def KMapping.refreshRun (m : KMapping) (options : Arg) (cb : Option Nat)
    (backend : Except JValue JValue) : List QueryCall × List CbRec :=
  let data := addHeaders (.obj []) m.coll.headers
  let cbCalls :=
    match cb with
    | none => []
    | some f =>
        match backend with
        | .error e => [{ cb := f, error := some e, result := none }]
        | .ok r => [{ cb := f, error := none, result := some (.mapobj { m with mapping := r }) }]
  ([⟨m.coll.collection, "admin", "getMapping", data, options, cb.isSome⟩], cbCalls)

/-- Modelled from the spec: KuzzleDataMapping.prototype.apply
(kuzzleDataMapping.js is not under src/). Per the spec (section 1) it builds
the mapping update request with the stored mapping as body, attaches the
collection headers and forwards it to the dispatcher; the collection wrapper
is not modified. -/
def KMapping.applyRun (m : KMapping) (options : Arg) (cb : Option Nat)
    (backend : Except JValue JValue) : List QueryCall × List CbRec :=
  let data := addHeaders (.obj [("body", m.mapping)]) m.coll.headers
  let cbCalls :=
    match cb with
    | none => []
    | some f =>
        match backend with
        | .error e => [{ cb := f, error := some e, result := none }]
        | .ok _ => [{ cb := f, error := none, result := some (.mapobj m) }]
  ([⟨m.coll.collection, "admin", "putMapping", data, options, cb.isSome⟩], cbCalls)

/-- KuzzleDataCollection.prototype.getMapping (part_001 lines 345 to 359):
requires a callback, creates a mapping wrapper and refreshes it. -/
def Collection.getMapping (self : Collection) (options : Arg) (cb : Option Nat)
    (backend : Except JValue JValue) : Except String (MOut Collection) := do
  let (options, cb) := shuffleArgs options cb
  let _ ← callbackRequired "KuzzleDataCollection.getMapping" cb
  let m : KMapping := { coll := self, mapping := .obj [] }
  let run := m.refreshRun options cb backend
  return { queries := run.1, cbCalls := run.2, post := self, ret := self }

/-- KuzzleDataCollection.prototype.publish (part_001 lines 372 to 386): no
callback parameter at all; the payload is always marked non persistent. -/
def Collection.publish (self : Collection) (document : Sum KDocument JValue)
    (options : Arg) : MOut Collection :=
  let data :=
    match document with
    | .inl d => d.toJSON
    | .inr v => JValue.obj [("body", v)]
  let data := jSet data "persist" (.bool false)
  let data := addHeaders data self.headers
  { queries := [⟨self.collection, "write", "create", data, options, false⟩]
    cbCalls := [], post := self, ret := self }

/-- KuzzleDataCollection.prototype.putMapping (part_001 lines 397 to 409):
creates a mapping wrapper with the given mapping and applies it. -/
def Collection.putMapping (self : Collection) (mapping : JValue)
    (options : Arg) (cb : Option Nat) (backend : Except JValue JValue) :
    MOut Collection :=
  let (options, cb) := shuffleArgs options cb
  let m : KMapping := { coll := self, mapping := mapping }
  let run := m.applyRun options cb backend
  { queries := run.1, cbCalls := run.2, post := self, ret := self }

/-- KuzzleDataCollection.prototype.replaceDocument (part_001 lines 424 to
452). -/
def Collection.replaceDocument (self : Collection) (documentId : JValue)
    (content : JValue) (options : Arg) (cb : Option Nat)
    (backend : Except JValue JValue) : MOut Collection :=
  let data := JValue.obj [("_id", documentId), ("body", content)]
  let (options, cb) := shuffleArgs options cb
  let data := addHeaders data self.headers
  let cbCalls :=
    match cb with
    | none => []
    | some f =>
        match backend with
        | .error e => [{ cb := f, error := some e, result := none }]
        | .ok r =>
            [{ cb := f, error := none
               result := some (.document (self.documentFactory (jGet r "_id") r)) }]
  { queries := [⟨self.collection, "write", "createOrUpdate", data, options, cb.isSome⟩]
    cbCalls := cbCalls, post := self, ret := self }

/-- KuzzleDataCollection.prototype.subscribe (part_001 lines 463 to 471):
requires the notification callback, creates a room on this collection and
returns the result of renewing it, a room handle and not the collection. -/
def Collection.subscribe (self : Collection) (filters : JValue)
    (cb : Option Nat) (options : Arg) : Except String (MOut KRoom) := do
  let f ← callbackRequired "KuzzleDataCollection.subscribe" cb
  let room : KRoom := { coll := self, options := options, filters := none, cbId := none }
  return { queries := [], cbCalls := [], post := self, ret := room.renew filters f }

/-- KuzzleDataCollection.prototype.truncate (part_001 lines 481 to 493). -/
def Collection.truncate (self : Collection) (options : Arg) (cb : Option Nat)
    (backend : Except JValue JValue) : MOut Collection :=
  let (options, cb) := shuffleArgs options cb
  let data := addHeaders (.obj []) self.headers
  { queries := [⟨self.collection, "admin", "truncateCollection", data, options, cb.isSome⟩]
    cbCalls := passThrough cb backend, post := self, ret := self }

/-- KuzzleDataCollection.prototype.updateDocument (part_001 lines 509 to
539): on success the callback receives a fresh KuzzleDocument built from the
response id only. -/
def Collection.updateDocument (self : Collection) (documentId : JValue)
    (content : JValue) (options : Arg) (cb : Option Nat)
    (backend : Except JValue JValue) : MOut Collection :=
  let data := JValue.obj [("_id", documentId), ("body", content)]
  let (options, cb) := shuffleArgs options cb
  let data := addHeaders data self.headers
  let cbCalls :=
    match cb with
    | none => []
    | some f =>
        match backend with
        | .error e => [{ cb := f, error := some e, result := none }]
        | .ok r =>
            [{ cb := f, error := none
               result := some (.document (newKDocument self (jGet r "_id") .null)) }]
  { queries := [⟨self.collection, "write", "update", data, options, cb.isSome⟩]
    cbCalls := cbCalls, post := self, ret := self }

/-- KuzzleDataCollection.prototype.roomFactory (part_001 lines 567 to 569). -/
def Collection.roomFactory (self : Collection) (options : Arg) : KRoom :=
  { coll := self, options := options, filters := none, cbId := none }

/-- KuzzleDataCollection.prototype.dataMappingFactory (part_001 lines 578
to 580). -/
def Collection.dataMappingFactory (self : Collection) (mapping : JValue) : KMapping :=
  { coll := self, mapping := mapping }

/-- Modelled from the spec: the body of Kuzzle.prototype.setHeaders (the
session core is not under src/), whose contract is restated by the doc
comment of part_001 lines 582 to 590: with replace set, the given content
replaces the current header set; otherwise the content is appended to the
current headers, only replacing already existing values. -/
def setHeadersBody (current : Fields) (content : Fields) (replace : Bool) : Fields :=
  if replace then content
  else content.foldl (fun acc kv => setKey acc kv.1 kv.2) current

/-- KuzzleDataCollection.prototype.setHeaders (part_001 lines 591 to 594):
calls the session helper with the wrapper as receiver, so only the wrapper
headers are touched, and returns the receiver. -/
def Collection.setHeaders (self : Collection) (content : Fields)
    (replace : Bool) : MOut Collection :=
  let self2 := { self with headers := setHeadersBody self.headers content replace }
  { queries := [], cbCalls := [], post := self2, ret := self2 }

/- ============ Constructor promisification (part_001 lines 40 to 49) ===== -/

/-- The blacklist inside the promisifyAll filter (part_001 line 44). -/
def promisifyBlacklist : List String :=
  ["publish", "setHeaders", "subscribe"]

/-- The promisifyAll filter function passed by the constructor (part_001
lines 43 to 47): a method is promisified when bluebird passes it and its
name is not on the blacklist. -/
def promisifyFilterFn (name : String) (passes : Bool) : Bool :=
  passes && !(promisifyBlacklist.contains name)

/-- Modelled from the spec: bluebird promisifyAll (an external collaborator
of the constructor): it augments the object with, for every method the
filter accepts, a variant whose name carries the given suffix, and keeps
every original method. -/
def promisifyAll (methods : List String) (suffix : String)
    (accept : String → Bool) : List String :=
  methods ++ (methods.filter accept).map (fun n => n ++ suffix)

/-- The methods of the KuzzleDataCollection prototype (part_001). -/
def collectionProtoMethods : List String :=
  ["advancedSearch", "count", "create", "createDocument", "delete",
   "deleteDocument", "fetchDocument", "fetchAllDocuments", "getMapping",
   "publish", "putMapping", "replaceDocument", "subscribe", "truncate",
   "updateDocument", "documentFactory", "roomFactory", "dataMappingFactory",
   "setHeaders"]

/-- The method set of the instance the constructor returns (part_001 lines
40 to 51): promisified through bluebird when the session carries a bluebird
handle, the plain instance otherwise. The passes argument is the acceptance
judgment of bluebird itself on each method, handed to the filter. -/
def constructedMethods (bluebird : Bool) (passes : String → Bool) : List String :=
  if bluebird then
    promisifyAll collectionProtoMethods "Promise"
      (fun n => promisifyFilterFn n (passes n))
  else collectionProtoMethods

/- ============ Session and wrapper world (for the frame property) ======== -/

/-- A session together with the collection wrappers created on it. -/
structure World where
  kuzzle : KuzzleState
  wrappers : List Collection
deriving Repr

/-- Calling setHeaders on the wrapper at a given index of the world: the
embedding of this.kuzzle.setHeaders.call applied to that wrapper (part_001
lines 591 to 594). -/
def World.setHeadersAt (w : World) (i : Nat) (content : Fields)
    (replace : Bool) : World :=
  match w.wrappers[i]? with
  | some c =>
      { w with wrappers :=
          w.wrappers.set i { c with headers := setHeadersBody c.headers content replace } }
  | none => w

/- ============ Subscription registry (spec sections 4.4 and 4.5) ========= -/

/-- Modelled from the spec: the room states of the SubscriptionRegistry
(spec section 3). -/
inductive RoomState where
  | subscribing : RoomState
  | active : RoomState
  | resubscribing : RoomState
  | cancelled : RoomState
deriving Repr, DecidableEq

/-- Modelled from the spec: a Room of the SubscriptionRegistry (spec section
3): the collection, the canonically serialized filter content, the
subscribe-to-self flag, the registered handlers in registration order, the
room state and the backend assigned channel. -/
structure Room where
  collection : String
  filters : String
  selfNotify : Bool
  callbacks : List Nat
  state : RoomState
  channel : Option Nat
deriving Repr, DecidableEq

/-- The room identity: derived deterministically from collection, filters
and the subscribe-to-self flag (spec section 3). -/
def Room.key (r : Room) : String × String × Bool :=
  (r.collection, r.filters, r.selfNotify)

/-- Modelled from the spec: the SubscriptionRegistry room table. -/
structure Registry where
  rooms : List Room
deriving Repr, DecidableEq

/-- Room lookup by identity. -/
def findRoom : List Room → String × String × Bool → Option Room
  | [], _ => none
  | r :: rest, k => if r.key = k then some r else findRoom rest k

/-- Modelled from the spec: SubscriptionRegistry.subscribe (spec section
4.4): computes the room identity; when a room with that identity exists and
is ACTIVE, adds the handler to its callback set with no network call;
otherwise creates a room in SUBSCRIBING and issues exactly one network
subscribe call. The second component counts the network subscribe calls
issued by the operation. -/
def Registry.subscribe (reg : Registry) (c : String) (f : String) (s : Bool)
    (handler : Nat) : Registry × Nat :=
  match findRoom reg.rooms (c, f, s) with
  | some room =>
      if room.state = .active then
        ({ rooms := reg.rooms.map
            (fun r => if r.key = (c, f, s)
                      then { r with callbacks := r.callbacks ++ [handler] }
                      else r) }, 0)
      else
        ({ rooms := reg.rooms ++
            [{ collection := c, filters := f, selfNotify := s,
               callbacks := [handler], state := .subscribing, channel := none }] }, 1)
  | none =>
      ({ rooms := reg.rooms ++
          [{ collection := c, filters := f, selfNotify := s,
             callbacks := [handler], state := .subscribing, channel := none }] }, 1)

/-- Modelled from the spec: the backend acknowledgment of a subscribe call
(spec section 4.4): the SUBSCRIBING room of that identity becomes ACTIVE and
records the backend assigned channel identifier. -/
def Registry.ack (reg : Registry) (k : String × String × Bool) (ch : Nat) : Registry :=
  { rooms := reg.rooms.map
      (fun r => if r.key = k ∧ r.state = .subscribing
                then { r with state := .active, channel := some ch }
                else r) }

/-- Channel lookup for notification routing. -/
def findChannel : List Room → Nat → Option Room
  | [], _ => none
  | r :: rest, ch => if r.channel = some ch then some r else findChannel rest ch

/-- Modelled from the spec: the NotificationRouter (spec section 4.5): an
inbound message carries a channel identifier; when a room with that channel
exists and is ACTIVE, every registered handler is invoked with the payload
in registration order; otherwise the notification is dropped. The result is
the list of handler invocations performed. -/
def Registry.notify (reg : Registry) (ch : Nat) (payload : JValue) :
    List (Nat × JValue) :=
  match findChannel reg.rooms ch with
  | some r => if r.state = .active then r.callbacks.map (fun h => (h, payload)) else []
  | none => []

/- ===================== Helper lemmas =================================== -/

theorem getKey_append_left {fs : Fields} {k : String} {v : JValue}
    (h : getKey fs k = some v) (gs : Fields) : getKey (fs ++ gs) k = some v := by
  induction fs with
  | nil => simp [getKey] at h
  | cons kv rest ih =>
      obtain ⟨k0, v0⟩ := kv
      by_cases hk : k0 = k
      · simp [getKey, hk] at h ⊢
        exact h
      · simp [getKey, hk] at h ⊢
        exact ih h

theorem getKey_addHeaders_fold {headers : Fields} :
    ∀ {fs : Fields} {k : String} {v : JValue}, getKey fs k = some v →
    getKey (headers.foldl
      (fun acc kv => if (getKey acc kv.1).isSome then acc else acc ++ [kv]) fs) k
      = some v := by
  induction headers with
  | nil => intro fs k v h; simpa using h
  | cons kv rest ih =>
      intro fs k v h
      simp only [List.foldl_cons]
      by_cases hc : (getKey fs kv.1).isSome
      · simp only [hc, if_true]
        exact ih h
      · simp only [hc, if_false]
        exact ih (getKey_append_left h [kv])

theorem jGet_addHeaders {fs : Fields} {k : String} {v : JValue}
    (h : getKey fs k = some v) (headers : Fields) :
    jGet (addHeaders (.obj fs) headers) k = v := by
  simp only [addHeaders, jGet]
  rw [getKey_addHeaders_fold h]
  rfl

theorem getKey_setKey_self (fs : Fields) (k : String) (v : JValue) :
    getKey (setKey fs k v) k = some v := by
  induction fs with
  | nil => simp [setKey, getKey]
  | cons kv rest ih =>
      obtain ⟨k0, v0⟩ := kv
      by_cases hk : k0 = k
      · simp [setKey, hk, getKey]
      · simp [setKey, hk, getKey, ih]

theorem toJSON_isObj (d : KDocument) : ∃ fs, d.toJSON = .obj fs := by
  unfold KDocument.toJSON
  by_cases h : truthy d.docId
  · exact ⟨[("_id", d.docId), ("body", d.content)], by simp [h]⟩
  · exact ⟨[("body", d.content)], by simp [h]⟩

/- ===================== Claims ========================================== -/

/-- C4: the Profile backing session reference is concealed: serialize
returns an object with exactly the _id, rateLimit and policies fields, so
two Profiles built from different session references but the same id and
content serialize identically, while the protected accessor still exposes
the stored reference. -/
theorem profile_serialize_conceals_kuzzle :
    ∀ (k1 k2 : Nat) (theId content : JValue),
      Profile.serialize (Profile.construct k1 theId content) =
        Profile.serialize (Profile.construct k2 theId content) ∧
      objKeys (Profile.serialize (Profile.construct k1 theId content)) =
        ["_id", "rateLimit", "policies"] ∧
      Profile.kuzzleGetter (Profile.construct k1 theId content) = k1 := by
  intro k1 k2 theId content
  exact ⟨rfl, rfl, rfl⟩

/-- C1: subscribing a first handler on a fresh (collection, filters,
selfNotify) triple issues one network subscribe call; once the room is
ACTIVE, two further subscribe calls with the identical triple add their
handlers without any network call, the total staying at exactly one network
subscribe, and a subsequent notification on the room channel reaches both
added handlers. -/
theorem subscribe_dedup_on_active_room :
    ∀ (c f : String) (s : Bool) (h0 h1 h2 ch : Nat) (payload : JValue),
      (Registry.subscribe { rooms := [] } c f s h0).2 = 1 ∧
      ((Registry.ack (Registry.subscribe { rooms := [] } c f s h0).1 (c, f, s) ch
        ).subscribe c f s h1).2 = 0 ∧
      ((((Registry.ack (Registry.subscribe { rooms := [] } c f s h0).1 (c, f, s) ch
        ).subscribe c f s h1).1).subscribe c f s h2).2 = 0 ∧
      Registry.notify
        (((((Registry.ack (Registry.subscribe { rooms := [] } c f s h0).1 (c, f, s) ch
          ).subscribe c f s h1).1).subscribe c f s h2).1) ch payload
        = [(h0, payload), (h1, payload), (h2, payload)] := by
  intro c f s h0 h1 h2 ch payload
  simp [Registry.subscribe, Registry.ack, Registry.notify, findRoom, findChannel, Room.key]

/-- C6: subscribe requires the notification callback, failing when it is
absent, and with a callback returns a room handle carrying the registered
filters and callback, not the collection itself, whose unsubscribe cancels
the registered callback. -/
theorem subscribe_requires_callback_returns_room :
    ∀ (self : Collection) (filters : JValue) (options : Arg),
      (∃ e, Collection.subscribe self filters none options = .error e) ∧
      (∀ f, Collection.subscribe self filters (some f) options =
          .ok { queries := [], cbCalls := [], post := self
                ret := { coll := self, options := options
                         filters := some filters, cbId := some f } } ∧
        KRoom.unsubscribe
            { coll := self, options := options, filters := some filters, cbId := some f }
          = { coll := self, options := options, filters := some filters, cbId := none }) := by
  intro self filters options
  constructor
  · exact ⟨_, rfl⟩
  · intro f
    exact ⟨rfl, rfl⟩

/-- C2: a request issued with a response callback invokes that callback
exactly once with a terminal outcome: the error alone on failure, or the
null error and the result on success; shown for advancedSearch and
createDocument, the sources of the claim. -/
theorem callback_invoked_exactly_once :
    (∀ (self : Collection) (filters : JValue) (options : Option JValue)
        (f : Nat) (backend : Except JValue SearchRaw),
      ∃ out, Collection.advancedSearch self filters (optArg options) (some f) backend
          = .ok out ∧
        out.cbCalls.length = 1 ∧
        (match backend with
         | .error e => out.cbCalls = [{ cb := f, error := some e, result := none }]
         | .ok _ => ∃ v, out.cbCalls = [{ cb := f, error := none, result := some v }])) ∧
    (∀ (self : Collection) (document : Sum KDocument JValue)
        (options : Option JValue) (f : Nat) (backend : Except JValue JValue),
      (Collection.createDocument self document (optArg options) (some f) backend
        ).cbCalls.length = 1 ∧
      (match backend with
       | .error e =>
           (Collection.createDocument self document (optArg options) (some f) backend
             ).cbCalls = [{ cb := f, error := some e, result := none }]
       | .ok _ =>
           ∃ v, (Collection.createDocument self document (optArg options) (some f) backend
             ).cbCalls = [{ cb := f, error := none, result := some v }])) := by
  constructor
  · intro self filters options f backend
    rcases options with _ | v <;> rcases backend with e | r <;>
      simp [Collection.advancedSearch, callbackRequired, shuffleArgs, optArg]
  · intro self document options f backend
    rcases options with _ | v <;> rcases backend with e | r <;>
      simp [Collection.createDocument, shuffleArgs, optArg]

/-- C7: each mutation operation invoked without a response callback
dispatches exactly one fire-and-forget query call and still returns the
receiver collection; publish always marks the payload non persistent and
createDocument always marks it persistent. -/
theorem fire_and_forget_dispatch :
    (∀ (self : Collection) (document : Sum KDocument JValue)
        (options : Option JValue) (backend : Except JValue JValue),
      (Collection.createDocument self document (optArg options) none backend).cbCalls = [] ∧
      (Collection.createDocument self document (optArg options) none backend).ret = self ∧
      ((Collection.createDocument self document (optArg options) none backend).queries.map
        QueryCall.hasCallback) = [false] ∧
      ((Collection.createDocument self document (optArg options) none backend).queries.map
        (fun q => jGet q.data "persist")) = [.bool true]) ∧
    (∀ (self : Collection) (arg : Sum String JValue)
        (options : Option JValue) (backend : Except JValue JValue),
      (Collection.deleteDocument self arg (optArg options) none backend).cbCalls = [] ∧
      (Collection.deleteDocument self arg (optArg options) none backend).ret = self ∧
      ((Collection.deleteDocument self arg (optArg options) none backend).queries.map
        QueryCall.hasCallback) = [false]) ∧
    (∀ (self : Collection) (documentId content : JValue)
        (options : Option JValue) (backend : Except JValue JValue),
      (Collection.replaceDocument self documentId content (optArg options) none backend
        ).cbCalls = [] ∧
      (Collection.replaceDocument self documentId content (optArg options) none backend
        ).ret = self ∧
      ((Collection.replaceDocument self documentId content (optArg options) none backend
        ).queries.map QueryCall.hasCallback) = [false]) ∧
    (∀ (self : Collection) (documentId content : JValue)
        (options : Option JValue) (backend : Except JValue JValue),
      (Collection.updateDocument self documentId content (optArg options) none backend
        ).cbCalls = [] ∧
      (Collection.updateDocument self documentId content (optArg options) none backend
        ).ret = self ∧
      ((Collection.updateDocument self documentId content (optArg options) none backend
        ).queries.map QueryCall.hasCallback) = [false]) ∧
    (∀ (self : Collection) (document : Sum KDocument JValue)
        (options : Option JValue),
      (Collection.publish self document (optArg options)).cbCalls = [] ∧
      (Collection.publish self document (optArg options)).ret = self ∧
      ((Collection.publish self document (optArg options)).queries.map
        QueryCall.hasCallback) = [false] ∧
      ((Collection.publish self document (optArg options)).queries.map
        (fun q => jGet q.data "persist")) = [.bool false]) := by
  refine ⟨?_, ?_, ?_, ?_, ?_⟩
  · intro self document options backend
    rcases options with _ | v <;>
      rcases document with d | docv <;>
      simp [Collection.createDocument, shuffleArgs, optArg] <;>
      first
      | · obtain ⟨fs, hfs⟩ := toJSON_isObj d
          simp [hfs, jSet]
          exact jGet_addHeaders (getKey_setKey_self fs "persist" (.bool true)) self.headers
      | · simp [jSet]
          exact jGet_addHeaders (getKey_setKey_self _ "persist" (.bool true)) self.headers
  · intro self arg options backend
    rcases options with _ | v <;> rcases arg with s | filt <;>
      simp [Collection.deleteDocument, shuffleArgs, optArg]
  · intro self documentId content options backend
    rcases options with _ | v <;>
      simp [Collection.replaceDocument, shuffleArgs, optArg]
  · intro self documentId content options backend
    rcases options with _ | v <;>
      simp [Collection.updateDocument, shuffleArgs, optArg]
  · intro self document options
    rcases options with _ | v <;>
      rcases document with d | docv <;>
      simp [Collection.publish, optArg] <;>
      first
      | · obtain ⟨fs, hfs⟩ := toJSON_isObj d
          simp [hfs, jSet]
          exact jGet_addHeaders (getKey_setKey_self fs "persist" (.bool false)) self.headers
      | · simp [jSet]
          exact jGet_addHeaders (getKey_setKey_self _ "persist" (.bool false)) self.headers

/-- The externally observable behavior of a method run that may fail on a
missing callback: the dispatched query calls and the callback invocations
(nothing is dispatched nor invoked when the method fails). -/
def obsOf : Except String (MOut Collection) → List QueryCall × List CbRec
  | .error _ => ([], [])
  | .ok o => (o.queries, o.cbCalls)

/-- C8: for every options slot, callback and backend outcome,
fetchAllDocuments dispatches exactly the query advancedSearch dispatches on
the empty filter object and performs exactly the same callback invocations. -/
theorem fetchAll_refines_advancedSearch :
    ∀ (self : Collection) (options : Arg) (cb : Option Nat)
      (backend : Except JValue SearchRaw),
      obsOf (Collection.fetchAllDocuments self options cb backend) =
        obsOf (Collection.advancedSearch self (.obj []) options cb backend) := by
  intro self options cb backend
  rcases options with _ | v | g <;> rcases cb with _ | f <;>
    rcases backend with e | r <;>
    simp only [Collection.fetchAllDocuments, Collection.advancedSearch,
      callbackRequired, shuffleArgs, obsOf] <;> rfl

/-- C9: a successful deleteDocument on a string id delivers to the callback
the one element array holding exactly that id, whatever the backend response
body is, while on a filters object it delivers the ids member of the backend
response. -/
theorem deleteDocument_callback_ids :
    (∀ (self : Collection) (theId : String) (options : Option JValue)
        (f : Nat) (r : JValue),
      (Collection.deleteDocument self (.inl theId) (optArg options) (some f) (.ok r)
        ).cbCalls
        = [{ cb := f, error := none
             result := some (.raw (.arr [.str theId])) }]) ∧
    (∀ (self : Collection) (filters : JValue) (options : Option JValue)
        (f : Nat) (r : JValue),
      (Collection.deleteDocument self (.inr filters) (optArg options) (some f) (.ok r)
        ).cbCalls
        = [{ cb := f, error := none, result := some (.raw (jGet r "ids")) }]) := by
  constructor
  · intro self theId options f r
    have hk : getKey [("_id", JValue.str theId)] "_id" = some (.str theId) := by
      simp [getKey]
    rcases options with _ | v <;>
      simp [Collection.deleteDocument, shuffleArgs, optArg, jGet_addHeaders hk]
  · intro self filters options f r
    rcases options with _ | v <;>
      simp [Collection.deleteDocument, shuffleArgs, optArg]

/-- C5: each wrapper takes its own copy of the session headers at
construction together with its own session reference, and a later setHeaders
on the wrapper at one index rewrites only the headers of that wrapper: the
session state, the identity fields of the touched wrapper and every other
wrapper stay unchanged. -/
theorem wrapper_headers_frame :
    ∀ (r : Nat) (k : KuzzleState) (name : String) (w : World) (i : Nat)
      (content : Fields) (replace : Bool),
      (mkCollection r k name).headers = k.headers ∧
      (mkCollection r k name).collection = name ∧
      (mkCollection r k name).kuzzle = r ∧
      (w.setHeadersAt i content replace).kuzzle = w.kuzzle ∧
      (∀ j, j ≠ i →
        (w.setHeadersAt i content replace).wrappers[j]? = w.wrappers[j]?) ∧
      (∀ c, w.wrappers[i]? = some c →
        (w.setHeadersAt i content replace).wrappers[i]? =
          some { c with headers := setHeadersBody c.headers content replace }) := by
  intro r k name w i content replace
  refine ⟨rfl, rfl, rfl, ?_, ?_, ?_⟩
  · cases h : w.wrappers[i]? <;> simp [World.setHeadersAt, h]
  · intro j hj
    cases h : w.wrappers[i]? <;> simp [World.setHeadersAt, h]
    exact List.getElem?_set_ne (Ne.symm hj)
  · intro c hc
    rcases List.getElem?_eq_some.mp hc with ⟨hlt, _⟩
    simp [World.setHeadersAt, hc, List.getElem?_set_self hlt]

/-- A concrete session state used by the frame witness. -/
def kEx : KuzzleState :=
  { headers := [("a", .str "x")], bluebird := false }

/-- A concrete world with two wrappers used by the frame witness. -/
def wEx : World :=
  { kuzzle := kEx
    wrappers := [mkCollection 0 kEx "c0", mkCollection 0 kEx "c1"] }

/-- Witness for C5 at a concrete world: setHeaders on wrapper 0 leaves
wrapper 1 and the session untouched and rewrites only the headers of
wrapper 0. -/
theorem wrapper_headers_frame_w :
    (wEx.setHeadersAt 0 [("b", .str "y")] false).wrappers[1]? = wEx.wrappers[1]? ∧
    (wEx.setHeadersAt 0 [("b", .str "y")] false).wrappers[0]? =
      some { mkCollection 0 kEx "c0" with
             headers := setHeadersBody (mkCollection 0 kEx "c0").headers
               [("b", .str "y")] false } ∧
    (wEx.setHeadersAt 0 [("b", .str "y")] false).kuzzle = wEx.kuzzle :=
  ⟨(wrapper_headers_frame 0 kEx "c0" wEx 0 [("b", .str "y")] false).2.2.2.2.1 1
      (by decide),
   (wrapper_headers_frame 0 kEx "c0" wEx 0 [("b", .str "y")] false).2.2.2.2.2 _ rfl,
   (wrapper_headers_frame 0 kEx "c0" wEx 0 [("b", .str "y")] false).2.2.2.1⟩

theorem append_promise_left_cancel {x b : String}
    (h : x ++ "Promise" = b ++ "Promise") : x = b := by
  have hd : x.data ++ "Promise".data = b.data ++ "Promise".data := by
    simpa [String.data_append] using congrArg String.data h
  exact String.ext (List.append_inj' hd rfl).1

/-- C3: promisification happens at construction time: with a bluebird handle
on the session, the constructor returns an instance that keeps every
prototype method and adds a Promise suffixed variant of exactly the methods
bluebird passes that are not publish, setHeaders or subscribe; the
blacklisted three never get a Promise variant, and without a bluebird handle
the instance is returned unchanged. -/
theorem promisify_at_construction :
    ∀ (passes : String → Bool),
      constructedMethods false passes = collectionProtoMethods ∧
      (∀ m, m ∈ collectionProtoMethods → m ∈ constructedMethods true passes) ∧
      (∀ m, m ∈ collectionProtoMethods → passes m = true →
        m ∉ promisifyBlacklist →
        (m ++ "Promise") ∈ constructedMethods true passes) ∧
      (∀ b, b ∈ promisifyBlacklist →
        (b ++ "Promise") ∉ constructedMethods true passes) := by
  intro passes
  refine ⟨rfl, ?_, ?_, ?_⟩
  · intro m hm
    simp only [constructedMethods, promisifyAll, if_true, List.mem_append]
    exact Or.inl hm
  · intro m hm hp hb
    simp only [constructedMethods, promisifyAll, if_true, List.mem_append,
      List.mem_map, List.mem_filter]
    refine Or.inr ⟨m, ⟨hm, ?_⟩, rfl⟩
    simp [promisifyFilterFn, hp, List.contains, List.elem_eq_mem, hb]
  · intro b hb hmem
    simp only [constructedMethods, promisifyAll, if_true, List.mem_append,
      List.mem_map, List.mem_filter] at hmem
    rcases hmem with h | ⟨x, ⟨hxm, hacc⟩, heq⟩
    · fin_cases hb <;> revert h <;> decide
    · have hxb : x = b := append_promise_left_cancel heq
      rw [hxb] at hacc
      simp [promisifyFilterFn, List.contains, List.elem_eq_mem] at hacc
      exact hacc.2 hb

/-- Witness for C3 with bluebird passing every method: publish gets no
Promise variant while advancedSearch does, and without bluebird the method
set is unchanged. -/
theorem promisify_at_construction_w :
    ("publish" ++ "Promise") ∉ constructedMethods true (fun _ => true) ∧
    ("advancedSearch" ++ "Promise") ∈ constructedMethods true (fun _ => true) ∧
    constructedMethods false (fun _ => true) = collectionProtoMethods :=
  ⟨(promisify_at_construction (fun _ => true)).2.2.2 "publish" (by decide),
   (promisify_at_construction (fun _ => true)).2.2.1 "advancedSearch"
     (by decide) rfl (by decide),
   (promisify_at_construction (fun _ => true)).1⟩

/-- A javascript value returned by a prototype operation, tagged by kind. -/
inductive RetVal where
  | coll (c : Collection) : RetVal
  | room (r : KRoom) : RetVal
  | doc (d : KDocument) : RetVal
  | mapping (m : KMapping) : RetVal
deriving Repr

/-- A concrete collection wrapper for the chaining counterexample. -/
def cEx10 : Collection :=
  { collection := "col", kuzzle := 0, headers := [] }

/-- C10 counterexample: documentFactory is a public prototype operation
other than subscribe, yet at a concrete input its returned value is a
KuzzleDocument and not the receiver collection instance, so the claim as
stated fails. -/
theorem every_op_returns_receiver_cex :
    RetVal.doc (Collection.documentFactory cEx10 (.str "d") (.obj []))
      ≠ RetVal.coll cEx10 := by
  intro h
  exact RetVal.noConfusion h

/-- Returning the receiver: the returned value is the final state of the
receiver, whose identity fields are those of the initial receiver. -/
def chainsSelf (pre : Collection) (out : MOut Collection) : Prop :=
  out.ret = out.post ∧ out.post.collection = pre.collection ∧
    out.post.kuzzle = pre.kuzzle

/-- chainsSelf lifted over a method that can fail on a missing callback. -/
def exceptChains (pre : Collection) : Except String (MOut Collection) → Prop
  | .error _ => True
  | .ok out => chainsSelf pre out

/-- The receiver is left untouched by a method returning a room handle. -/
def roomKeepsSelf (pre : Collection) : Except String (MOut KRoom) → Prop
  | .error _ => True
  | .ok out => out.post = pre

/-- C10 amended: every public prototype operation other than subscribe and
the instantiation helpers documentFactory, roomFactory and
dataMappingFactory returns the receiver collection instance, and no
operation changes the read-only collection and kuzzle identity fields of
the receiver. -/
theorem every_op_returns_receiver_amended :
    (∀ self filters options cb backend,
      exceptChains self (Collection.advancedSearch self filters options cb backend)) ∧
    (∀ self filters options cb backend,
      exceptChains self (Collection.count self filters options cb backend)) ∧
    (∀ self options cb backend,
      chainsSelf self (Collection.create self options cb backend)) ∧
    (∀ self document options cb backend,
      chainsSelf self (Collection.createDocument self document options cb backend)) ∧
    (∀ self options cb backend,
      chainsSelf self (Collection.delete self options cb backend)) ∧
    (∀ self arg options cb backend,
      chainsSelf self (Collection.deleteDocument self arg options cb backend)) ∧
    (∀ self documentId options cb backend,
      exceptChains self (Collection.fetchDocument self documentId options cb backend)) ∧
    (∀ self options cb backend,
      exceptChains self (Collection.fetchAllDocuments self options cb backend)) ∧
    (∀ self options cb backend,
      exceptChains self (Collection.getMapping self options cb backend)) ∧
    (∀ self document options,
      chainsSelf self (Collection.publish self document options)) ∧
    (∀ self mapping options cb backend,
      chainsSelf self (Collection.putMapping self mapping options cb backend)) ∧
    (∀ self documentId content options cb backend,
      chainsSelf self (Collection.replaceDocument self documentId content options cb backend)) ∧
    (∀ self options cb backend,
      chainsSelf self (Collection.truncate self options cb backend)) ∧
    (∀ self documentId content options cb backend,
      chainsSelf self (Collection.updateDocument self documentId content options cb backend)) ∧
    (∀ self content replace,
      chainsSelf self (Collection.setHeaders self content replace)) ∧
    (∀ self filters cb options,
      roomKeepsSelf self (Collection.subscribe self filters cb options)) := by
  refine ⟨?_, ?_, ?_, ?_, ?_, ?_, ?_, ?_, ?_, ?_, ?_, ?_, ?_, ?_, ?_, ?_⟩
  · intro self filters options cb backend
    rcases options with _ | v | g <;> rcases cb with _ | f <;>
      first
        | exact True.intro
        | exact ⟨rfl, rfl, rfl⟩
  · intro self filters options cb backend
    rcases options with _ | v | g <;> rcases cb with _ | f <;>
      first
        | exact True.intro
        | exact ⟨rfl, rfl, rfl⟩
  · intro self options cb backend
    rcases options with _ | v | g <;> rcases cb with _ | f <;>
      exact ⟨rfl, rfl, rfl⟩
  · intro self document options cb backend
    rcases options with _ | v | g <;> rcases cb with _ | f <;>
      exact ⟨rfl, rfl, rfl⟩
  · intro self options cb backend
    rcases options with _ | v | g <;> rcases cb with _ | f <;>
      exact ⟨rfl, rfl, rfl⟩
  · intro self arg options cb backend
    rcases options with _ | v | g <;> rcases cb with _ | f <;>
      exact ⟨rfl, rfl, rfl⟩
  · intro self documentId options cb backend
    rcases options with _ | v | g <;> rcases cb with _ | f <;>
      first
        | exact True.intro
        | exact ⟨rfl, rfl, rfl⟩
  · intro self options cb backend
    rcases options with _ | v | g <;> rcases cb with _ | f <;>
      rcases backend with e | r <;>
      first
        | exact True.intro
        | exact ⟨rfl, rfl, rfl⟩
  · intro self options cb backend
    rcases options with _ | v | g <;> rcases cb with _ | f <;>
      first
        | exact True.intro
        | exact ⟨rfl, rfl, rfl⟩
  · intro self document options
    exact ⟨rfl, rfl, rfl⟩
  · intro self mapping options cb backend
    rcases options with _ | v | g <;> rcases cb with _ | f <;>
      exact ⟨rfl, rfl, rfl⟩
  · intro self documentId content options cb backend
    rcases options with _ | v | g <;> rcases cb with _ | f <;>
      exact ⟨rfl, rfl, rfl⟩
  · intro self options cb backend
    rcases options with _ | v | g <;> rcases cb with _ | f <;>
      exact ⟨rfl, rfl, rfl⟩
  · intro self documentId content options cb backend
    rcases options with _ | v | g <;> rcases cb with _ | f <;>
      exact ⟨rfl, rfl, rfl⟩
  · intro self content replace
    exact ⟨rfl, rfl, rfl⟩
  · intro self filters cb options
    rcases cb with _ | f
    · exact True.intro
    · exact rfl
